import Mathlib

/-!
Shallow embedding of the face registration/recognition orchestrator of
`app_docker_compose/app/inference.py`.

The four orchestrator operations (`get_registered_face`, `unregister_face`,
`register_face`, `recognize_face`) are translated into pure Lean functions.
External collaborators are modelled as oracles:

* the Milvus vector collection is a list of `(person_id, embedding)` rows
  inside `DB.milvus`; queries/inserts/deletes act on that list, and an `Env`
  flag per call site says whether the call raises `MilvusException`;
* the MySQL person table is `DB.mysql`; `Env.mysqlFails` says whether the
  parameterized insert raises `pymysql.Error`;
* the Redis cache calls (`hset`/`expire`) are effect-free for the claims at
  hand, but `Env.redisFails` says whether they raise;
* the Triton inference result `pred_dict` is an input value (`PredDict`),
  since `run_inference` is an external collaborator;
* the Milvus ANN search result of `collection.search` is an input oracle
  (`SearchResp`): a list of per-query hit groups, or a raised exception.

A Python function that can let an exception escape is embedded as returning
`Except PyErr _`; `Except.error` means an unhandled exception propagated out
of the orchestrator function. Distances are embedded as rationals.
-/

namespace FaceReg

/-- The uniform response dict shape `{status, message, match_id?}`. -/
structure Outcome where
  status : String
  message : String
  match_id : Option Int := none
  deriving Repr, DecidableEq

/-- The `person_data` dict handed to `register_face`. The fixed fields follow
the `init.sql` person schema used at the MySQL insert; `person_name` models
whether the dict carries the extra `'person_name'` key read on the success
path (line 191), `none` meaning the key is absent (a lookup raises
`KeyError`). -/
structure PersonData where
  id : Int
  name : String
  birthdate : String
  country : String
  city : String
  title : String
  org : String
  person_name : Option String := none
  deriving Repr, DecidableEq

/-- The `pred_dict` returned by `run_inference` (external collaborator):
a status code, a message used when the dict itself is returned as the
response, the detected-face list (only its emptiness is inspected) and the
face feature vectors. -/
structure PredDict where
  status : Int
  message : String
  face_detections : List Unit
  face_feats : List (List ℚ)
  deriving Repr, DecidableEq

/-- Failure oracle: one flag per collaborator call site, `true` meaning the
call raises its store exception (`MilvusException`, `pymysql.Error`,
`redis` error respectively). -/
structure Env where
  queryFails : Bool := false
  insertFails : Bool := false
  flushFails : Bool := false
  mysqlFails : Bool := false
  deleteFails : Bool := false
  redisFails : Bool := false
  deriving Repr, DecidableEq

/-- The two stores the orchestrator mutates: the Milvus collection rows
`(person_id, embedding)` and the MySQL person table rows. -/
structure DB where
  milvus : List (Int × List ℚ) := []
  mysql : List (Int × PersonData) := []
  deriving Repr, DecidableEq

/-- An unhandled Python exception escaping an orchestrator function. -/
inductive PyErr where
  /-- an uncaught `MilvusException` (from `collection.flush` or
  `collection.search`) -/
  | milvus : PyErr
  /-- an uncaught redis error (from `redis_conn.hset` / `expire`) -/
  | redis : PyErr
  /-- `KeyError` from `person_data['person_name']` -/
  | keyError : PyErr
  /-- `IndexError` from `[0]` on an empty list -/
  | indexError : PyErr
  deriving Repr, DecidableEq

/-- Embeds `get_registered_face(person_id)`: Milvus boolean-expression query
`person_id == {id}` with `limit=10`; empty result or a caught
`MilvusException` give a failed dict, a hit gives a success dict. -/
def get_registered_face (env : Env) (db : DB) (person_id : Int) : Outcome :=
  if env.queryFails then
    { status := "failed", message := "MilvusException" }
  else
    match (db.milvus.filter (fun r => r.1 = person_id)).take 10 with
    | [] =>
        { status := "failed"
          message := "Person with id " ++ toString person_id ++ " not found in database" }
    | found :: _ =>
        { status := "success"
          message := "Person " ++ toString found.1 ++ " found" }

/-- Embeds `unregister_face(person_id)`: Milvus delete with expression
`person_id in [{id}]`; a caught `MilvusException` gives a failed dict and
leaves the store unchanged, otherwise all rows of that identity are removed
and a success dict is returned. -/
def unregister_face (env : Env) (db : DB) (person_id : Int) : DB × Outcome :=
  if env.deleteFails then
    (db,
     { status := "failed"
       message := "Person with id " ++ toString person_id ++ " couldn't be unregistered" })
  else
    ({ db with milvus := db.milvus.filter (fun r => ¬(r.1 = person_id)) },
     { status := "success"
       message := "Person with id " ++ toString person_id ++ " unregistered" })

/-- Embeds `register_face(model_name, file_path, threshold, person_data)` after the
`run_inference` call, whose result is the input `pred`: the guard clauses on
`pred`, the duplicate check via `get_registered_face`, the Milvus vector
insert (caught), the flush (uncaught), the MySQL insert (caught, with
`unregister_face` as compensation), the redis cache write (uncaught) and the
success dict built from `person_data['person_name']`. -/
def register_face (env : Env) (db : DB) (pred : PredDict) (person_data : PersonData) :
    Except PyErr (DB × Outcome) :=
  if pred.status = 0 ∧ pred.face_detections = [] then
    .ok (db, { status := "failed", message := "No faces were detected in the image" })
  else if pred.status < 0 then
    .ok (db, { status := "failed", message := pred.message })
  else
    let person_id := person_data.id
    if (get_registered_face env db person_id).status = "success" then
      .ok (db,
        { status := "failed"
          message := "person with id " ++ toString person_id ++ " already exists in milvus db" })
    else
      match pred.face_feats with
      | [] => .error .indexError
      | face_vector :: _ =>
        if env.insertFails then
          .ok (db, { status := "failed", message := "milvus insertion error" })
        else
          let db1 : DB := { db with milvus := db.milvus ++ [(person_id, face_vector)] }
          if env.flushFails then
            .error .milvus
          else if env.mysqlFails then
            .ok ((unregister_face env db1 person_id).1,
                 { status := "failed", message := "mysql insertion error" })
          else
            let db2 : DB := { db1 with mysql := db1.mysql ++ [(person_id, person_data)] }
            if env.redisFails then
              .error .redis
            else
              match person_data.person_name with
              | none => .error .keyError
              | some pname =>
                  .ok (db2,
                    { status := "success"
                      message := "Person " ++ pname ++ " successfully registered" })

/-- One per-query hit group of a Milvus `collection.search` result: the
candidate distances (`hits.distances`) and, in the same order, the candidate
`person_id` entity fields. -/
structure Hits where
  distances : List ℚ
  person_ids : List Int
  deriving Repr, DecidableEq

/-- The response of the (uncaught) `collection.search` call: a raised
`MilvusException`, or one hit group per query vector. -/
inductive SearchResp where
  | fails : SearchResp
  | ok : List Hits → SearchResp
  deriving Repr, DecidableEq

/-- Python `<=` on lists of comparables (lexicographic; a strict prefix is
smaller). `sorted(results, key=lambda k: k.distances)` orders by exactly
this relation on the key. -/
def lexLe : List ℚ → List ℚ → Bool
  | [], _ => true
  | _ :: _, [] => false
  | a :: as, b :: bs => if a < b then true else if b < a then false else lexLe as bs

/-- Comparator used by the `sorted` call in `recognize_face`: hit groups
ordered by their `distances` key. -/
def hitsLe (h1 h2 : Hits) : Bool :=
  lexLe h1.distances h2.distances

/-- Embeds `recognize_face(model_name, file_path, threshold, face_dist_threshold)`
after the `run_inference` call: guard clauses on `pred`, the uncaught
vector search, the empty-result guard, `sorted(results, key=...distances)`
(a stable sort of the per-query groups — candidates inside a group are not
re-sorted), selection of `results[0].distances[0]` and
`results[0][0].entity.get("person_id")`, and the strict `>` threshold
decision. -/
def recognize_face (pred : PredDict) (search : SearchResp)
    (face_dist_threshold : ℚ) : Except PyErr Outcome :=
  if pred.status = 0 ∧ pred.face_detections = [] then
    .ok { status := "failed", message := "No faces were detected in the image" }
  else if pred.status < 0 then
    .ok { status := "failed", message := pred.message }
  else
    match search with
    | .fails => .error .milvus
    | .ok results =>
      if results.isEmpty then
        .ok { status := "failed", message := "No saved face entries found in database" }
      else
        match results.mergeSort hitsLe with
        | [] => .error .indexError
        | r0 :: _ =>
          match r0.distances, r0.person_ids with
          | face_dist :: _, person_id :: _ =>
            if face_dist_threshold < face_dist then
              .ok { status := "success"
                    message := "No similar faces were found in the database" }
            else
              .ok { status := "success"
                    message := "Detected face matches id " ++ toString person_id
                    match_id := some person_id }
          | _, _ => .error .indexError

/-- Concrete inference result used by witnesses: status 0, one detected
face, one feature vector. -/
def predGood : PredDict :=
  { status := 0, message := "", face_detections := [()], face_feats := [[1]] }

/-- Concrete person record used by witnesses; it carries the extra
`person_name` key read on the success path. -/
def pdAlice : PersonData :=
  { id := 1, name := "Alice", birthdate := "1990-01-01", country := "US"
    city := "NYC", title := "Eng", org := "Acme", person_name := some ("Alice") }

theorem lexLe_cons_iff (x y : ℚ) (xs ys : List ℚ) :
    lexLe (x :: xs) (y :: ys) = true ↔ (x < y ∨ (x = y ∧ lexLe xs ys = true)) := by
  by_cases h1 : x < y
  · simp [lexLe, h1]
  · by_cases h2 : y < x
    · simp [lexLe, h1, h2, h2.ne.symm]
    · have hxy : x = y := le_antisymm (not_lt.mp h2) (not_lt.mp h1)
      simp [lexLe, h1, h2, hxy]

theorem lexLe_trans : ∀ a b c : List ℚ,
    lexLe a b = true → lexLe b c = true → lexLe a c = true
  | [], _, _, _, _ => rfl
  | _ :: _, [], _, h1, _ => by simp [lexLe] at h1
  | _ :: _, _ :: _, [], _, h2 => by simp [lexLe] at h2
  | x :: xs, y :: ys, z :: zs, h1, h2 => by
    rw [lexLe_cons_iff] at h1 h2 ⊢
    rcases h1 with h1 | ⟨rfl, h1⟩
    · rcases h2 with h2 | ⟨rfl, h2⟩
      · exact Or.inl (lt_trans h1 h2)
      · exact Or.inl h1
    · rcases h2 with h2 | ⟨rfl, h2⟩
      · exact Or.inl h2
      · exact Or.inr ⟨rfl, lexLe_trans xs ys zs h1 h2⟩

theorem lexLe_refl (a : List ℚ) : lexLe a a = true := by
  induction a with
  | nil => rfl
  | cons x xs ih => exact (lexLe_cons_iff x x xs xs).mpr (Or.inr ⟨rfl, ih⟩)

theorem lexLe_total : ∀ a b : List ℚ, (lexLe a b || lexLe b a) = true
  | [], _ => by simp [lexLe]
  | _ :: _, [] => by simp [lexLe]
  | x :: xs, y :: ys => by
    rcases lt_trichotomy x y with h | rfl | h
    · simp [lexLe_cons_iff, h]
    · have ih : lexLe xs ys = true ∨ lexLe ys xs = true := by
        simpa using lexLe_total xs ys
      rcases ih with h2 | h2
      · rw [Bool.or_eq_true]
        exact Or.inl ((lexLe_cons_iff x x xs ys).mpr (Or.inr ⟨rfl, h2⟩))
      · rw [Bool.or_eq_true]
        exact Or.inr ((lexLe_cons_iff x x ys xs).mpr (Or.inr ⟨rfl, h2⟩))
    · simp [lexLe_cons_iff, h]

theorem hitsLe_trans (a b c : Hits) (h1 : hitsLe a b = true) (h2 : hitsLe b c = true) :
    hitsLe a c = true :=
  lexLe_trans _ _ _ h1 h2

theorem hitsLe_total (a b : Hits) : (hitsLe a b || hitsLe b a) = true :=
  lexLe_total _ _

theorem mergeSortHits_ne_nil {l : List Hits} (h : l ≠ []) : l.mergeSort hitsLe ≠ [] := by
  intro h0
  apply h
  have hl := (List.mergeSort_perm l hitsLe).length_eq
  rw [h0] at hl
  exact List.length_eq_zero.mp hl.symm

theorem mergeSortHits_head_min {l : List Hits} {r0 : Hits} {rest : List Hits}
    (hsort : l.mergeSort hitsLe = r0 :: rest) :
    ∀ h ∈ l, hitsLe r0 h = true := by
  intro h hm
  have hm' : h ∈ r0 :: rest := by
    rw [← hsort]
    exact ((List.mergeSort_perm l hitsLe).symm.mem_iff).mp hm
  have hp : List.Pairwise (fun a b => hitsLe a b = true) (r0 :: rest) := by
    rw [← hsort]
    exact List.sorted_mergeSort hitsLe_trans hitsLe_total l
  rcases List.mem_cons.mp hm' with rfl | hm2
  · exact lexLe_refl _
  · exact (List.pairwise_cons.mp hp).1 h hm2

theorem lexLe_head_le {d e : ℚ} {ds es : List ℚ}
    (h : lexLe (d :: ds) (e :: es) = true) : d ≤ e := by
  rcases (lexLe_cons_iff d e ds es).mp h with h1 | ⟨rfl, _⟩
  · exact le_of_lt h1
  · exact le_refl _

theorem register_success_shape {env : Env} {db : DB} {pred : PredDict} {pd : PersonData}
    {db1 : DB} {out1 : Outcome}
    (h : register_face env db pred pd = .ok (db1, out1)) (hs : out1.status = "success") :
    ∃ v feats pname, pred.face_feats = v :: feats ∧ pd.person_name = some pname ∧
      db1 = { db with milvus := db.milvus ++ [(pd.id, v)]
                      mysql := db.mysql ++ [(pd.id, pd)] } := by
  simp only [register_face] at h
  by_cases hc1 : pred.status = 0 ∧ pred.face_detections = []
  · rw [if_pos hc1] at h
    cases h
    simp at hs
  · rw [if_neg hc1] at h
    by_cases hc2 : pred.status < 0
    · rw [if_pos hc2] at h
      cases h
      simp at hs
    · rw [if_neg hc2] at h
      by_cases hc3 : (get_registered_face env db pd.id).status = "success"
      · rw [if_pos hc3] at h
        cases h
        simp at hs
      · rw [if_neg hc3] at h
        rcases hf : pred.face_feats with _ | ⟨v, feats⟩
        · rw [hf] at h
          cases h
        · rw [hf] at h
          simp only [] at h
          by_cases hc4 : env.insertFails = true
          · rw [if_pos hc4] at h
            cases h
            simp at hs
          · rw [if_neg hc4] at h
            by_cases hc5 : env.flushFails = true
            · rw [if_pos hc5] at h
              cases h
            · rw [if_neg hc5] at h
              by_cases hc6 : env.mysqlFails = true
              · rw [if_pos hc6] at h
                cases h
                simp at hs
              · rw [if_neg hc6] at h
                by_cases hc7 : env.redisFails = true
                · rw [if_pos hc7] at h
                  cases h
                · rw [if_neg hc7] at h
                  rcases hn : pd.person_name with _ | pname
                  · rw [hn] at h
                    cases h
                  · rw [hn] at h
                    cases h
                    exact ⟨v, feats, pname, rfl, rfl, rfl⟩

/-- Claim C1 (confirmed): when the Milvus vector insert has succeeded and the
MySQL metadata insert fails, `register_face` hands the post-insert store to
`unregister_face` (the deleteByIdentity compensation) and returns the failed
Outcome carrying the mysql insertion error; the Outcome is that same mysql
error for either value of the compensation-delete failure flag, and when the
delete succeeds no Milvus row for the identity survives. -/
theorem C1_register_mysql_failure_compensates
    (env : Env) (db : DB) (pred : PredDict) (pd : PersonData)
    (v : List ℚ) (feats : List (List ℚ))
    (hpred : ¬(pred.status = 0 ∧ pred.face_detections = []))
    (hpos : ¬pred.status < 0)
    (hdup : ¬(get_registered_face env db pd.id).status = "success")
    (hfeats : pred.face_feats = v :: feats)
    (hins : env.insertFails = false)
    (hflush : env.flushFails = false)
    (hmysql : env.mysqlFails = true) :
    register_face env db pred pd =
      .ok ((unregister_face env { db with milvus := db.milvus ++ [(pd.id, v)] } pd.id).1,
           { status := "failed", message := "mysql insertion error" }) ∧
    (env.deleteFails = false →
      ∀ r ∈ (unregister_face env { db with milvus := db.milvus ++ [(pd.id, v)] } pd.id).1.milvus,
        ¬(r.1 = pd.id)) := by
  constructor
  · simp only [register_face]
    rw [if_neg hpred, if_neg hpos, if_neg hdup, hfeats]
    simp only []
    rw [if_neg (by simp [hins]), if_neg (by simp [hflush]), if_pos hmysql]
  · intro hdel r hr
    have hdel1 : (unregister_face env { db with milvus := db.milvus ++ [(pd.id, v)] } pd.id).1 =
        { db with milvus := (db.milvus ++ [(pd.id, v)]).filter (fun r => ¬(r.1 = pd.id)) } := by
      unfold unregister_face
      rw [if_neg (by simp [hdel])]
    rw [hdel1] at hr
    have h2 := (List.mem_filter.mp hr).2
    simpa using h2

/-- Witness for C1 at a concrete input: empty stores, a valid single-face
inference result, and an environment whose mysql insert fails. -/
theorem C1_register_mysql_failure_compensates_witness :
    register_face { mysqlFails := true } {} predGood pdAlice =
      .ok ((unregister_face { mysqlFails := true }
              { ({} : DB) with milvus := ({} : DB).milvus ++ [(pdAlice.id, [1])] } pdAlice.id).1,
           { status := "failed", message := "mysql insertion error" }) ∧
    (({ mysqlFails := true } : Env).deleteFails = false →
      ∀ r ∈ (unregister_face { mysqlFails := true }
              { ({} : DB) with milvus := ({} : DB).milvus ++ [(pdAlice.id, [1])] } pdAlice.id).1.milvus,
        ¬(r.1 = pdAlice.id)) :=
  C1_register_mysql_failure_compensates { mysqlFails := true } {} predGood pdAlice [1] []
    (by decide) (by decide) (by decide) rfl rfl rfl rfl

/-- Counterexample to claim C2 as stated: on an otherwise fully successful
register call, a flush failure makes `register_face` raise the store
exception (modelled as `Except.error`) instead of returning an Outcome, so a
fault propagates unhandled past the orchestrator boundary. -/
theorem C2_counterexample_flush_fault_escapes :
    register_face { flushFails := true } {} predGood pdAlice = .error .milvus := rfl

/-- Claim C2 (corrected): `get_registered_face` and `unregister_face` always
return one well-formed Outcome; `register_face` returns exactly one
well-formed Outcome provided its uncaught steps do not raise — the flush and
the redis cache write do not fail, the extractor returned at least one
feature vector, and the person dict carries the `person_name` key — and
`recognize_face` provided the vector search does not raise and each returned
hit group is non-empty. -/
theorem C2_orchestrator_outcome_paths
    (env : Env) (db : DB) (pid : Int) (pred : PredDict) (pd : PersonData)
    (search : List Hits) (thr : ℚ)
    (hflush : env.flushFails = false) (hredis : env.redisFails = false)
    (hname : pd.person_name.isSome = true)
    (hfeats : pred.face_feats ≠ [])
    (hsearch : ∀ h ∈ search, h.distances ≠ [] ∧ h.person_ids ≠ []) :
    ((get_registered_face env db pid).status = "success" ∨
      (get_registered_face env db pid).status = "failed") ∧
    ((unregister_face env db pid).2.status = "success" ∨
      (unregister_face env db pid).2.status = "failed") ∧
    (∃ db2 out, register_face env db pred pd = .ok (db2, out) ∧
      (out.status = "success" ∨ out.status = "failed")) ∧
    (∃ out, recognize_face pred (.ok search) thr = .ok out ∧
      (out.status = "success" ∨ out.status = "failed")) := by
  refine ⟨?_, ?_, ?_, ?_⟩
  · unfold get_registered_face
    by_cases hq : env.queryFails = true
    · rw [if_pos hq]
      exact Or.inr rfl
    · rw [if_neg hq]
      rcases ht : (db.milvus.filter (fun r => r.1 = pid)).take 10 with _ | ⟨a, t⟩
      · rw [ht]
        exact Or.inr rfl
      · rw [ht]
        exact Or.inl rfl
  · unfold unregister_face
    by_cases hdel : env.deleteFails = true
    · rw [if_pos hdel]
      exact Or.inr rfl
    · rw [if_neg hdel]
      exact Or.inl rfl
  · simp only [register_face]
    by_cases hc1 : pred.status = 0 ∧ pred.face_detections = []
    · rw [if_pos hc1]
      exact ⟨_, _, rfl, Or.inr rfl⟩
    · rw [if_neg hc1]
      by_cases hc2 : pred.status < 0
      · rw [if_pos hc2]
        exact ⟨_, _, rfl, Or.inr rfl⟩
      · rw [if_neg hc2]
        by_cases hc3 : (get_registered_face env db pd.id).status = "success"
        · rw [if_pos hc3]
          exact ⟨_, _, rfl, Or.inr rfl⟩
        · rw [if_neg hc3]
          rcases hf : pred.face_feats with _ | ⟨v, feats⟩
          · exact absurd hf hfeats
          · simp only []
            by_cases hc4 : env.insertFails = true
            · rw [if_pos hc4]
              exact ⟨_, _, rfl, Or.inr rfl⟩
            · rw [if_neg hc4, if_neg (by simp [hflush])]
              by_cases hc6 : env.mysqlFails = true
              · rw [if_pos hc6]
                exact ⟨_, _, rfl, Or.inr rfl⟩
              · rw [if_neg hc6, if_neg (by simp [hredis])]
                rcases hn : pd.person_name with _ | pname
                · rw [hn] at hname
                  simp at hname
                · exact ⟨_, _, rfl, Or.inl rfl⟩
  · simp only [recognize_face]
    by_cases hc1 : pred.status = 0 ∧ pred.face_detections = []
    · rw [if_pos hc1]
      exact ⟨_, rfl, Or.inr rfl⟩
    · rw [if_neg hc1]
      by_cases hc2 : pred.status < 0
      · rw [if_pos hc2]
        exact ⟨_, rfl, Or.inr rfl⟩
      · rw [if_neg hc2]
        rcases hsr : search with _ | ⟨s0, srest⟩
        · exact ⟨_, rfl, Or.inr rfl⟩
        · rw [if_neg (by simp)]
          rcases hms : (s0 :: srest).mergeSort hitsLe with _ | ⟨r0, rest⟩
          · exact absurd hms (mergeSortHits_ne_nil (by simp))
          · have hr0 : r0 ∈ s0 :: srest := by
              have hmem : r0 ∈ (s0 :: srest).mergeSort hitsLe := by
                rw [hms]
                exact List.mem_cons_self r0 rest
              exact ((List.mergeSort_perm (s0 :: srest) hitsLe).mem_iff).mp hmem
            have hr0' : r0 ∈ search := by
              rw [hsr]
              exact hr0
            obtain ⟨hd, hi⟩ := hsearch r0 hr0'
            rcases hdd : r0.distances with _ | ⟨d, ds⟩
            · exact absurd hdd hd
            · rcases hii : r0.person_ids with _ | ⟨pid0, ps⟩
              · exact absurd hii hi
              · simp only []
                rw [hdd, hii]
                show ∃ out,
                    (if thr < d then
                      Except.ok (ε := PyErr)
                        { status := "success"
                          message := "No similar faces were found in the database" }
                    else
                      Except.ok
                        { status := "success"
                          message := "Detected face matches id " ++ toString pid0
                          match_id := some pid0 }) = Except.ok out ∧
                    (out.status = "success" ∨ out.status = "failed")
                by_cases hthr : thr < d
                · rw [if_pos hthr]
                  exact ⟨_, rfl, Or.inl rfl⟩
                · rw [if_neg hthr]
                  exact ⟨_, rfl, Or.inl rfl⟩

/-- Witness for C2 at a concrete input: empty stores, a valid single-face
inference result, one single-candidate hit group, an environment with no
failures. -/
theorem C2_orchestrator_outcome_paths_witness :
    ((get_registered_face {} {} 1).status = "success" ∨
      (get_registered_face {} {} 1).status = "failed") ∧
    ((unregister_face {} {} 1).2.status = "success" ∨
      (unregister_face {} {} 1).2.status = "failed") ∧
    (∃ db2 out, register_face {} {} predGood pdAlice = .ok (db2, out) ∧
      (out.status = "success" ∨ out.status = "failed")) ∧
    (∃ out, recognize_face predGood
        (.ok [{ distances := [1], person_ids := [5] }]) 1 = .ok out ∧
      (out.status = "success" ∨ out.status = "failed")) :=
  C2_orchestrator_outcome_paths {} {} 1 predGood pdAlice
    [{ distances := [1], person_ids := [5] }] 1
    rfl rfl rfl (by decide) (by decide)

/-- Counterexample to claim C3 as stated: with the closest distance exactly
equal to the threshold (both 1), the Outcome of `recognize_face` does carry
the match identity, so equality is treated as matching, not as no-match. -/
theorem C3_counterexample_equal_distance_matches :
    recognize_face predGood (.ok [{ distances := [1], person_ids := [5] }]) 1 =
      .ok { status := "success", message := "Detected face matches id " ++ toString (5 : Int)
            match_id := some 5 } := by
  simp only [recognize_face, predGood, List.mergeSort_singleton]
  rfl

/-- Claim C3 (corrected): the rejection test is strict `>`, so a closest
distance exactly equal to `matchDistanceThreshold` (and any distance at or
below it) yields a match carrying the candidate identity; only a distance
strictly above the threshold yields the no-similar-face Outcome without a
match identity. -/
theorem C3_threshold_boundary
    (pred : PredDict)
    (hc1 : ¬(pred.status = 0 ∧ pred.face_detections = []))
    (hc2 : ¬pred.status < 0)
    (d thr : ℚ) (ds : List ℚ) (pid : Int) (ps : List Int) :
    (d ≤ thr →
      recognize_face pred (.ok [{ distances := d :: ds, person_ids := pid :: ps }]) thr =
        .ok { status := "success", message := "Detected face matches id " ++ toString pid
              match_id := some pid }) ∧
    (thr < d →
      recognize_face pred (.ok [{ distances := d :: ds, person_ids := pid :: ps }]) thr =
        .ok { status := "success"
              message := "No similar faces were found in the database" }) := by
  have hbase : ∀ P : Except PyErr Outcome → Prop,
      (P (if thr < d then
            .ok { status := "success"
                  message := "No similar faces were found in the database" }
          else
            .ok { status := "success", message := "Detected face matches id " ++ toString pid
                  match_id := some pid })) →
      P (recognize_face pred (.ok [{ distances := d :: ds, person_ids := pid :: ps }]) thr) := by
    intro P hP
    simp only [recognize_face]
    rw [if_neg hc1, if_neg hc2]
    simp only [List.isEmpty_cons, List.mergeSort_singleton]
    exact hP
  constructor
  · intro hle
    refine hbase (fun x => x = _) ?_
    rw [if_neg (not_lt.mpr hle)]
  · intro hgt
    refine hbase (fun x => x = _) ?_
    rw [if_pos hgt]

/-- Witness for C3 at a concrete input: a single candidate at distance 1
with threshold 1 (the boundary case). -/
theorem C3_threshold_boundary_witness :
    (((1 : ℚ) ≤ 1) →
      recognize_face predGood (.ok [{ distances := [1], person_ids := [5] }]) 1 =
        .ok { status := "success", message := "Detected face matches id " ++ toString (5 : Int)
              match_id := some 5 }) ∧
    (((1 : ℚ) < 1) →
      recognize_face predGood (.ok [{ distances := [1], person_ids := [5] }]) 1 =
        .ok { status := "success"
              message := "No similar faces were found in the database" }) :=
  C3_threshold_boundary predGood (by decide) (by decide) 1 1 [] 5 []

/-- Counterexample to claim C4 as stated: a single hit group whose
candidates arrive in the order distances [2, 1, 3] / identities [3, 7, 9]
is not re-sorted by candidate distance, so `recognize_face` reports
identity 3 (the first candidate of the group) instead of identity 7 (the
minimum-distance candidate). -/
theorem C4_counterexample_group_candidates_not_resorted :
    recognize_face predGood
        (.ok [{ distances := [2, 1, 3], person_ids := [3, 7, 9] }]) 10 =
      .ok { status := "success", message := "Detected face matches id " ++ toString (3 : Int)
            match_id := some 3 } := by
  simp only [recognize_face, predGood, List.mergeSort_singleton]
  rfl

/-- Claim C4 (corrected): the `sorted` call in `recognize_face` re-sorts
only the per-query hit groups (by their distance-list key) and then takes
the first candidate of the first group; candidates inside a group are not
re-sorted, so the minimum-distance identity is only guaranteed when each
group's candidate list is already ascending by distance — in that case the
selected candidate does carry the minimum distance over all returned
candidates. -/
theorem C4_min_distance_selection
    (pred : PredDict)
    (hc1 : ¬(pred.status = 0 ∧ pred.face_detections = []))
    (hc2 : ¬pred.status < 0)
    (results : List Hits) (thr : ℚ) (hne : results ≠ [])
    (hgroups : ∀ h ∈ results, h.distances ≠ [] ∧ h.person_ids ≠ [] ∧
        List.Sorted (· ≤ ·) h.distances) :
    ∃ h0 ∈ results, ∃ dmin pid,
      h0.distances.head? = some dmin ∧ h0.person_ids.head? = some pid ∧
      (∀ h1 ∈ results, ∀ d ∈ h1.distances, dmin ≤ d) ∧
      (¬thr < dmin →
        recognize_face pred (.ok results) thr =
          .ok { status := "success", message := "Detected face matches id " ++ toString pid
                match_id := some pid }) ∧
      (thr < dmin →
        recognize_face pred (.ok results) thr =
          .ok { status := "success"
                message := "No similar faces were found in the database" }) := by
  rcases hms : results.mergeSort hitsLe with _ | ⟨r0, rest⟩
  · exact absurd hms (mergeSortHits_ne_nil hne)
  · have hr0 : r0 ∈ results := by
      refine ((List.mergeSort_perm results hitsLe).mem_iff).mp ?_
      rw [hms]
      exact List.mem_cons_self r0 rest
    obtain ⟨hd, hi, hsorted⟩ := hgroups r0 hr0
    rcases hdd : r0.distances with _ | ⟨dmin, ds⟩
    · exact absurd hdd hd
    rcases hii : r0.person_ids with _ | ⟨pid, ps⟩
    · exact absurd hii hi
    have heval : recognize_face pred (.ok results) thr =
        (if thr < dmin then
          Except.ok { status := "success"
                      message := "No similar faces were found in the database" }
        else
          Except.ok { status := "success"
                      message := "Detected face matches id " ++ toString pid
                      match_id := some pid }) := by
      simp only [recognize_face]
      rw [if_neg hc1, if_neg hc2]
      rw [if_neg (show ¬(results.isEmpty = true) by simp [List.isEmpty_iff, hne])]
      rw [hms]
      simp only []
      rw [hdd, hii]
    refine ⟨r0, hr0, dmin, pid, by rw [hdd]; rfl, by rw [hii]; rfl, ?_, ?_, ?_⟩
    · intro h1 hh1 d hdmem
      obtain ⟨hd1, _, hsorted1⟩ := hgroups h1 hh1
      have hle : hitsLe r0 h1 = true := mergeSortHits_head_min hms h1 hh1
      rcases hd1e : h1.distances with _ | ⟨e, es⟩
      · exact absurd hd1e hd1
      · have h2 : lexLe (dmin :: ds) (e :: es) = true := by
          rw [← hdd, ← hd1e]
          exact hle
        have hde : dmin ≤ e := lexLe_head_le h2
        rw [hd1e] at hdmem
        rcases List.mem_cons.mp hdmem with rfl | hdm
        · exact hde
        · rw [hd1e] at hsorted1
          exact le_trans hde ((List.sorted_cons.mp hsorted1).1 d hdm)
    · intro hthr
      rw [heval, if_neg hthr]
    · intro hthr
      rw [heval, if_pos hthr]

/-- Witness for C4 at a concrete input: one hit group, candidates already
ascending by distance. -/
theorem C4_min_distance_selection_witness :
    ∃ h0 ∈ [({ distances := [1, 2], person_ids := [7, 9] } : Hits)], ∃ dmin pid,
      h0.distances.head? = some dmin ∧ h0.person_ids.head? = some pid ∧
      (∀ h1 ∈ [({ distances := [1, 2], person_ids := [7, 9] } : Hits)],
        ∀ d ∈ h1.distances, dmin ≤ d) ∧
      (¬(10 : ℚ) < dmin →
        recognize_face predGood
            (.ok [{ distances := [1, 2], person_ids := [7, 9] }]) 10 =
          .ok { status := "success", message := "Detected face matches id " ++ toString pid
                match_id := some pid }) ∧
      ((10 : ℚ) < dmin →
        recognize_face predGood
            (.ok [{ distances := [1, 2], person_ids := [7, 9] }]) 10 =
          .ok { status := "success"
                message := "No similar faces were found in the database" }) :=
  C4_min_distance_selection predGood (by decide) (by decide)
    [{ distances := [1, 2], person_ids := [7, 9] }] 10 (by decide)
    (by
      intro h hh
      simp only [List.mem_singleton] at hh
      subst hh
      refine ⟨by decide, by decide, ?_⟩
      simp only [List.sorted_cons, List.mem_singleton, List.mem_cons]
      refine ⟨?_, ?_⟩
      · intro b hb
        rcases hb with rfl | hb
        · decide
        · simp at hb
      · simp)

/-- The Outcome component of `register_face` never depends on the
compensation-delete failure flag: the flag only decides whether the Milvus
rows survive, never what is returned to the caller. -/
theorem register_outcome_ignores_deleteFails (env : Env) (db : DB) (pred : PredDict)
    (pd : PersonData) (b : Bool) :
    Except.map Prod.snd (register_face { env with deleteFails := b } db pred pd) =
    Except.map Prod.snd (register_face env db pred pd) := by
  obtain ⟨q, i, f, m, dl, r⟩ := env
  have hgr : get_registered_face ⟨q, i, f, m, b, r⟩ db pd.id =
      get_registered_face ⟨q, i, f, m, dl, r⟩ db pd.id := rfl
  simp only [register_face]
  rw [hgr]
  by_cases hc1 : pred.status = 0 ∧ pred.face_detections = []
  · simp only [if_pos hc1]
  · simp only [if_neg hc1]
    by_cases hc2 : pred.status < 0
    · simp only [if_pos hc2]
    · simp only [if_neg hc2]
      by_cases hdup : (get_registered_face ⟨q, i, f, m, dl, r⟩ db pd.id).status = "success"
      · simp only [if_pos hdup]
      · simp only [if_neg hdup]
        rcases hf : pred.face_feats with _ | ⟨v, feats⟩
        · rfl
        · simp only []
          by_cases hc4 : i = true
          · simp only [if_pos hc4]
          · simp only [if_neg hc4]
            by_cases hc5 : f = true
            · simp only [if_pos hc5]
            · simp only [if_neg hc5]
              by_cases hc6 : m = true
              · simp only [if_pos hc6]
                rfl
              · simp only [if_neg hc6]

/-- Counterexample to claim C5 as stated: the redis cache put is a
best-effort step, yet its failure changes what the caller gets — an escaped
exception instead of the success Outcome the same call returns when the
cache put succeeds. -/
theorem C5_counterexample_cache_failure_changes_outcome :
    register_face { redisFails := true } {} predGood pdAlice = .error .redis ∧
    register_face {} {} predGood pdAlice =
      .ok ({ milvus := [(1, [1])], mysql := [(1, pdAlice)] },
           { status := "success", message := "Person Alice successfully registered" }) :=
  ⟨rfl, rfl⟩

/-- Claim C5 (corrected): among the best-effort steps only the compensation
delete never changes the returned Outcome; a failure of the flush aborts
`register_face` with an escaped `MilvusException`, and a failure of the
redis cache put aborts it with an escaped redis error, instead of the
Outcome the call would otherwise return. -/
theorem C5_best_effort_behaviour
    (env : Env) (db : DB) (pred : PredDict) (pd : PersonData)
    (v : List ℚ) (feats : List (List ℚ))
    (hpred : ¬(pred.status = 0 ∧ pred.face_detections = []))
    (hpos : ¬pred.status < 0)
    (hdup : ¬(get_registered_face env db pd.id).status = "success")
    (hfeats : pred.face_feats = v :: feats)
    (hins : env.insertFails = false) :
    (∀ b1 b2 : Bool,
      Except.map Prod.snd (register_face { env with deleteFails := b1 } db pred pd) =
      Except.map Prod.snd (register_face { env with deleteFails := b2 } db pred pd)) ∧
    (env.flushFails = true → register_face env db pred pd = .error .milvus) ∧
    (env.flushFails = false → env.mysqlFails = false → env.redisFails = true →
      register_face env db pred pd = .error .redis) := by
  refine ⟨?_, ?_, ?_⟩
  · intro b1 b2
    exact (register_outcome_ignores_deleteFails env db pred pd b1).trans
      (register_outcome_ignores_deleteFails env db pred pd b2).symm
  · intro hf2
    simp only [register_face]
    rw [if_neg hpred, if_neg hpos, if_neg hdup, hfeats]
    simp only []
    rw [if_neg (by simp [hins]), if_pos hf2]
  · intro hf2 hm2 hr2
    simp only [register_face]
    rw [if_neg hpred, if_neg hpos, if_neg hdup, hfeats]
    simp only []
    rw [if_neg (by simp [hins]), if_neg (by simp [hf2]), if_neg (by simp [hm2]), if_pos hr2]

/-- Witness for C5 at a concrete input: empty stores and an environment
whose redis cache put fails. -/
theorem C5_best_effort_behaviour_witness :
    (∀ b1 b2 : Bool,
      Except.map Prod.snd (register_face { ({ redisFails := true } : Env) with deleteFails := b1 }
        {} predGood pdAlice) =
      Except.map Prod.snd (register_face { ({ redisFails := true } : Env) with deleteFails := b2 }
        {} predGood pdAlice)) ∧
    (({ redisFails := true } : Env).flushFails = true →
      register_face { redisFails := true } {} predGood pdAlice = .error .milvus) ∧
    (({ redisFails := true } : Env).flushFails = false →
      ({ redisFails := true } : Env).mysqlFails = false →
      ({ redisFails := true } : Env).redisFails = true →
      register_face { redisFails := true } {} predGood pdAlice = .error .redis) :=
  C5_best_effort_behaviour { redisFails := true } {} predGood pdAlice [1] []
    (by decide) (by decide) (by decide) rfl rfl

/-- A Milvus point query whose filtered result set is non-empty reports the
identity as found. -/
theorem get_registered_face_found {env : Env} {db : DB} {pid : Int}
    (hq : env.queryFails = false)
    (hne : db.milvus.filter (fun r => r.1 = pid) ≠ []) :
    (get_registered_face env db pid).status = "success" := by
  unfold get_registered_face
  rw [if_neg (by simp [hq])]
  obtain ⟨a, t, hat⟩ := List.exists_cons_of_ne_nil hne
  rw [hat]
  rfl

/-- Claim C6 (confirmed): after a successful `register_face` for an
identity, a second `register_face` for the same identity is rejected with a
failed Outcome whose message says the identity already exists; the
rejection is decided by the exact-match `get_registered_face` lookup and
the stores are returned unchanged. -/
theorem C6_duplicate_register_rejected
    (env1 env2 : Env) (db db1 : DB) (pred1 pred2 : PredDict) (pd : PersonData) (out1 : Outcome)
    (h1 : register_face env1 db pred1 pd = .ok (db1, out1))
    (hs : out1.status = "success")
    (hq2 : env2.queryFails = false)
    (hpred2 : ¬(pred2.status = 0 ∧ pred2.face_detections = []))
    (hpos2 : ¬pred2.status < 0) :
    (get_registered_face env2 db1 pd.id).status = "success" ∧
    register_face env2 db1 pred2 pd =
      .ok (db1, { status := "failed"
                  message := "person with id " ++ toString pd.id ++ " already exists in milvus db" }) := by
  obtain ⟨v, feats, pname, hf, hn, hdb1⟩ := register_success_shape h1 hs
  have hfil : db1.milvus.filter (fun r => r.1 = pd.id) ≠ [] := by
    rw [hdb1]
    simp [List.filter_append]
  have hget : (get_registered_face env2 db1 pd.id).status = "success" :=
    get_registered_face_found hq2 hfil
  refine ⟨hget, ?_⟩
  simp only [register_face]
  rw [if_neg hpred2, if_neg hpos2, if_pos hget]

/-- Witness for C6 at a concrete input: the second register call on the
store produced by a successful first call. -/
theorem C6_duplicate_register_rejected_witness :
    (get_registered_face {} { milvus := [(1, [1])], mysql := [(1, pdAlice)] } pdAlice.id).status =
      "success" ∧
    register_face {} { milvus := [(1, [1])], mysql := [(1, pdAlice)] } predGood pdAlice =
      .ok ({ milvus := [(1, [1])], mysql := [(1, pdAlice)] },
           { status := "failed"
             message := "person with id " ++ toString pdAlice.id ++ " already exists in milvus db" }) :=
  C6_duplicate_register_rejected {} {} {} { milvus := [(1, [1])], mysql := [(1, pdAlice)] }
    predGood predGood pdAlice
    { status := "success", message := "Person Alice successfully registered" }
    rfl rfl rfl (by decide) (by decide)

/-- Claim C7 (confirmed): a register call that ends in a rejection-class
outcome (no face detected, extraction error reported by the inference
result, or duplicate identity) returns the stores exactly as it received
them and a failed Outcome: it returns before any insert and without
compensation. -/
theorem C7_rejection_no_mutation
    (env : Env) (db : DB) (pred : PredDict) (pd : PersonData) (db2 : DB) (out : Outcome)
    (h : register_face env db pred pd = .ok (db2, out))
    (hrej : (pred.status = 0 ∧ pred.face_detections = []) ∨ pred.status < 0 ∨
        (get_registered_face env db pd.id).status = "success") :
    db2 = db ∧ out.status = "failed" := by
  simp only [register_face] at h
  by_cases hc1 : pred.status = 0 ∧ pred.face_detections = []
  · rw [if_pos hc1] at h
    cases h
    exact ⟨rfl, rfl⟩
  · rw [if_neg hc1] at h
    by_cases hc2 : pred.status < 0
    · rw [if_pos hc2] at h
      cases h
      exact ⟨rfl, rfl⟩
    · rw [if_neg hc2] at h
      rcases hrej with h3 | h3 | h3
      · exact absurd h3 hc1
      · exact absurd h3 hc2
      · rw [if_pos h3] at h
        cases h
        exact ⟨rfl, rfl⟩

/-- Witness for C7 at a concrete input: a duplicate-identity rejection on a
store already holding the identity. -/
theorem C7_rejection_no_mutation_witness :
    ({ milvus := [(1, [1])] } : DB) = { milvus := [(1, [1])] } ∧
    ({ status := "failed"
       message := "person with id " ++ toString (1 : Int) ++ " already exists in milvus db" }
      : Outcome).status = "failed" :=
  C7_rejection_no_mutation {} { milvus := [(1, [1])] } predGood pdAlice
    { milvus := [(1, [1])] }
    { status := "failed"
      message := "person with id " ++ toString (1 : Int) ++ " already exists in milvus db" }
    rfl (Or.inr (Or.inr rfl))

/-- Claim C8 (confirmed): `unregister_face` on an identity with no Milvus
row returns a success Outcome and leaves the store unchanged, and applying
it again gives the same result — deletion is idempotent and deleting a
missing identity is not an error. -/
theorem C8_unregister_missing_id_idempotent
    (env : Env) (db : DB) (pid : Int)
    (hdel : env.deleteFails = false)
    (habs : ∀ r ∈ db.milvus, ¬(r.1 = pid)) :
    (unregister_face env db pid).2.status = "success" ∧
    (unregister_face env db pid).1 = db ∧
    unregister_face env (unregister_face env db pid).1 pid = unregister_face env db pid := by
  have hfil : db.milvus.filter (fun r => ¬(r.1 = pid)) = db.milvus :=
    List.filter_eq_self.mpr (fun r hr => by simpa using habs r hr)
  have h1 : unregister_face env db pid =
      (db, { status := "success"
             message := "Person with id " ++ toString pid ++ " unregistered" }) := by
    unfold unregister_face
    rw [if_neg (by simp [hdel]), hfil]
  refine ⟨?_, ?_, ?_⟩
  · rw [h1]
  · rw [h1]
  · rw [h1]
    exact h1

/-- Witness for C8 at a concrete input: deleting identity 1 from an empty
store. -/
theorem C8_unregister_missing_id_idempotent_witness :
    (unregister_face {} {} 1).2.status = "success" ∧
    (unregister_face {} {} 1).1 = {} ∧
    unregister_face {} (unregister_face {} {} 1).1 1 = unregister_face {} {} 1 :=
  C8_unregister_missing_id_idempotent {} {} 1 rfl (by simp)

/-- Claim C9 (confirmed): when the search ran and the closest distance is
strictly above the threshold, `recognize_face` returns a success Outcome
with the no-similar-face message and no match identity; an empty search
result list instead yields a failed Outcome, so the two cases stay
distinguishable by status. -/
theorem C9_above_threshold_success_no_match
    (pred : PredDict)
    (hc1 : ¬(pred.status = 0 ∧ pred.face_detections = []))
    (hc2 : ¬pred.status < 0)
    (d thr : ℚ) (ds : List ℚ) (pid : Int) (ps : List Int)
    (habove : thr < d) :
    recognize_face pred (.ok [{ distances := d :: ds, person_ids := pid :: ps }]) thr =
      .ok { status := "success", message := "No similar faces were found in the database"
            match_id := none } ∧
    recognize_face pred (.ok []) thr =
      .ok { status := "failed", message := "No saved face entries found in database"
            match_id := none } := by
  constructor
  · have hbase : ∀ P : Except PyErr Outcome → Prop,
        (P (if thr < d then
              .ok { status := "success"
                    message := "No similar faces were found in the database" }
            else
              .ok { status := "success", message := "Detected face matches id " ++ toString pid
                    match_id := some pid })) →
        P (recognize_face pred (.ok [{ distances := d :: ds, person_ids := pid :: ps }]) thr) := by
      intro P hP
      simp only [recognize_face]
      rw [if_neg hc1, if_neg hc2]
      simp only [List.isEmpty_cons, List.mergeSort_singleton]
      exact hP
    refine hbase (fun x => x = _) ?_
    rw [if_pos habove]
  · simp only [recognize_face]
    rw [if_neg hc1, if_neg hc2]
    rfl

/-- Witness for C9 at a concrete input: a single candidate at distance 5
with threshold 1. -/
theorem C9_above_threshold_success_no_match_witness :
    recognize_face predGood (.ok [{ distances := [5], person_ids := [5] }]) 1 =
      .ok { status := "success", message := "No similar faces were found in the database"
            match_id := none } ∧
    recognize_face predGood (.ok []) 1 =
      .ok { status := "failed", message := "No saved face entries found in database"
            match_id := none } :=
  C9_above_threshold_success_no_match predGood (by decide) (by decide) 5 1 [] 5 []
    (by decide)

/-- Claim C10 (confirmed): when the duplicate-check query itself raises a
store exception, `get_registered_face` reports a failed status, which
`register_face` treats exactly like an unregistered identity: the vector
insert and the rest of the registration proceed, so the uniqueness check is
silently bypassed and the row is appended even when the identity already
has one. -/
theorem C10_query_failure_bypasses_duplicate_check
    (env : Env) (db : DB) (pred : PredDict) (pd : PersonData)
    (v : List ℚ) (feats : List (List ℚ)) (pname : String)
    (hq : env.queryFails = true)
    (hins : env.insertFails = false) (hflush : env.flushFails = false)
    (hmysql : env.mysqlFails = false) (hredis : env.redisFails = false)
    (hc1 : ¬(pred.status = 0 ∧ pred.face_detections = []))
    (hc2 : ¬pred.status < 0)
    (hfeats : pred.face_feats = v :: feats)
    (hname : pd.person_name = some pname) :
    (get_registered_face env db pd.id).status = "failed" ∧
    register_face env db pred pd =
      .ok ({ db with milvus := db.milvus ++ [(pd.id, v)]
                     mysql := db.mysql ++ [(pd.id, pd)] },
           { status := "success", message := "Person " ++ pname ++ " successfully registered" }) := by
  have hget : get_registered_face env db pd.id =
      { status := "failed", message := "MilvusException" } := by
    unfold get_registered_face
    rw [if_pos hq]
  refine ⟨by rw [hget], ?_⟩
  simp only [register_face]
  rw [if_neg hc1, if_neg hc2, if_neg (by rw [hget]; decide), hfeats]
  simp only []
  rw [if_neg (by simp [hins]), if_neg (by simp [hflush]), if_neg (by simp [hmysql]),
      if_neg (by simp [hredis]), hname]

/-- Witness for C10 at a concrete input: the store already holds a row for
identity 1, the query raises, and the register call appends a second row
for the same identity. -/
theorem C10_query_failure_bypasses_duplicate_check_witness :
    (get_registered_face { queryFails := true } { milvus := [(1, [1])] } pdAlice.id).status =
      "failed" ∧
    register_face { queryFails := true } { milvus := [(1, [1])] } predGood pdAlice =
      .ok ({ milvus := [(1, [1]), (1, [1])], mysql := [(1, pdAlice)] },
           { status := "success", message := "Person Alice successfully registered" }) :=
  C10_query_failure_bypasses_duplicate_check { queryFails := true } { milvus := [(1, [1])] }
    predGood pdAlice [1] [] ("Alice")
    rfl rfl rfl rfl rfl (by decide) (by decide) rfl rfl

end FaceReg
